import Mathlib

/-!
Verification of the taxonomy → Wikidata QID resolver
(`add_wikidata_qids.py`, the single source file of this repository).

The core under scrutiny is `score_candidate` (feature scorer),
`find_candidates_for_row` (candidate retrieval + ranking + acceptance
threshold), and the per-row body of `main` (skip guard, result attachment).
HTTP transport (`safe_get`, `search_wikidata`, `get_entity_data`) is
modelled as injected collaborator functions returning `Option` values:
`none` stands for `safe_get` returning `None` after exhausting retries.

Python rows are CSV `DictReader` dictionaries (string keys, string
values); output rows may additionally carry a float, hence the separate
`OutVal`/`OutRow` types.  Python floats are modelled as exact rationals
(every score literal in the source is a decimal constant).  Python
exceptions (`KeyError` from `candidate['id']`, `ValueError` from tuple
unpacking) are modelled with `Except PyErr`.
-/

attribute [local semireducible] Rat.add Rat.ofScientific

deriving instance DecidableEq for Except

namespace AddWikidataQids

/-- Python exceptions that the modelled code can raise. -/
inductive PyErr where
  | keyError (key : String)
  | valueError (msg : String)
deriving DecidableEq, Repr

/-- An input CSV row: an association list of string fields, mirroring the
`csv.DictReader` dictionary (insertion-ordered, string values). -/
abbrev Row : Type := List (String × String)

/-- A value of an output row: `main` stores strings everywhere except
`wiki_qid_confidence`, which is set to the float `candidates[0]['confidence']`
in the accepted branch. -/
inductive OutVal where
  | str (s : String)
  | num (q : ℚ)
deriving DecidableEq, Repr

/-- An output row produced by the per-row body of `main`. -/
abbrev OutRow : Type := List (String × OutVal)

/-- First-match association lookup, modelling Python `dict` access
(`d.get(k)` / `d[k]`); dictionary keys are unique so first match is the match. -/
def assocGet {α : Type} : List (String × α) → String → Option α
  | [], _ => none
  | (k, v) :: rest, key => if k = key then some v else assocGet rest key

/-- Models `row.get(k)`: `none` is Python `None` (key absent). -/
def rowGet? (r : Row) (k : String) : Option String := assocGet r k

/-- Models `row.get(k, '')`. -/
def rowGetD (r : Row) (k : String) : String := (rowGet? r k).getD ""

/-- Models Python dictionary assignment `d[k] = v`: replace in place if the
key exists, else append (Python dicts preserve insertion order). -/
def setKey : OutRow → String → OutVal → OutRow
  | [], k, v => [(k, v)]
  | (k', v') :: rest, k, v =>
      if k' = k then (k, v) :: rest else (k', v') :: setKey rest k v

/-- Embeds an input row into the output-row type (all string values).
The skip branch of `main` appends the input row itself; the resolve branch
starts from `r_out = dict(r)`, a copy — both are this embedding. -/
def toOut (r : Row) : OutRow := r.map (fun p => (p.1, OutVal.str p.2))

/-- Lookup in an output row. -/
def rowGetO (r : OutRow) (k : String) : Option OutVal := assocGet r k

/-- Python truthiness of `row.get(k)` for string-valued rows:
`None` and `''` are falsy. -/
def pyTruthyS : Option String → Bool
  | none => false
  | some s => s != ""

/-- Models the Python `or` on two `row.get` results (strings or `None`):
returns the first operand unless it is falsy (`None` or `''`). -/
def pyOrS (a b : Option String) : Option String :=
  match a with
  | some s => if s = "" then b else some s
  | none => b

/-- Models Python `str.lower()` (the labels and rows here are ASCII, where
`Char.toLower` and Python agree); written as a structural map over the
character list. -/
def pyLower (s : String) : String := String.mk (s.data.map Char.toLower)

/-- Accumulator loop for `pySplit`: walk the characters, flushing the
current token at each whitespace character and discarding empty tokens. -/
def pySplitAux : List Char → List Char → List String
  | [], cur => if cur.isEmpty then [] else [String.mk cur.reverse]
  | c :: cs, cur =>
      if c.isWhitespace then
        (if cur.isEmpty then pySplitAux cs [] else String.mk cur.reverse :: pySplitAux cs [])
      else pySplitAux cs (c :: cur)

/-- Models Python `str.split()` with no argument: split on whitespace runs,
discarding empty pieces. -/
def pySplit (s : String) : List String := pySplitAux s.data []

/-- Models the Python substring test `needle in hay`. -/
def isSubstr (needle hay : String) : Bool :=
  (List.range (hay.toList.length + 1)).any
    (fun i => ((hay.toList.drop i).take needle.toList.length) == needle.toList)

/-- A search hit from `wbsearchentities` (`res['search'][i]`), keeping only
the keys the code reads; `none` models an absent key (the code reads
`'label'` and `'description'` with `.get`, but `'id'` with `['id']`). -/
structure SearchHit where
  id : Option String
  label : Option String
  description : Option String
deriving DecidableEq, Repr

/-- A successful `search_wikidata` response; `res.get('search', [])` makes a
missing `search` key indistinguishable from an empty hit list. -/
structure SearchRes where
  search : List SearchHit
deriving DecidableEq, Repr

/-- One entity record inside an `EntityData` response; the code only reads
`e.get('sitelinks', {})` and tests `'enwiki' in sitelinks`, so only the
sitelink keys are kept. -/
structure EntityRec where
  sitelinks : List String
deriving DecidableEq, Repr

/-- A successful `get_entity_data` response: `ent.get('entities', {})`,
a mapping from QID to entity record. -/
structure EntityDoc where
  entities : List (String × EntityRec)
deriving DecidableEq, Repr

/-- The tuple `(c['id'], c.get('label'), c.get('description'), conf)`
accumulated in `scored` (lines 99–102). -/
structure ScoredTuple where
  qid : String
  label : Option String
  description : Option String
  conf : ℚ
deriving DecidableEq, Repr

/-- The dictionary built in the `candidates` list comprehension (line 105):
keys `qid`, `label`, `description`, `confidence`. -/
structure AcceptedEntry where
  qid : String
  label : Option String
  description : Option String
  confidence : ℚ
deriving DecidableEq, Repr

/-- The candidate-source collaborator: `search_wikidata`; `none` models a
transport failure (`safe_get` returned `None`, and the equally falsy
degenerate `{}` body, both of which take the `if not res` branch). -/
abbrev SearchFn : Type := String → Option SearchRes

/-- The entity-detail collaborator: `get_entity_data`; `none` models a
transport failure (code guard `if ent:` also treats the falsy `{}` as no data). -/
abbrev DetailFn : Type := String → Option EntityDoc

/-- Lines 55: `(candidate.get('label') or "").lower()`. -/
def candLabel (c : SearchHit) : String := pyLower (c.label.getD "")

/-- Line 69: `(candidate.get('description') or "").lower()`. -/
def candDesc (c : SearchHit) : String := pyLower (c.description.getD "")

/-- Line 56: `(row.get('wiki_label') or row.get('word') or "").lower()`. -/
def termOf (row : Row) : String :=
  pyLower ((pyOrS (rowGet? row "wiki_label") (rowGet? row "word")).getD "")

/-- Line 71: the context tokens
`(row.get('geo_path','') + " " + row.get('time_path','') + " " + row.get('category','')).lower().split()`. -/
def ctxOf (row : Row) : List String :=
  pySplit (pyLower (rowGetD row "geo_path" ++ " " ++ rowGetD row "time_path" ++ " "
    ++ rowGetD row "category"))

/-- Lines 57–66: the label-match tier of `score_candidate` — exact equality
`+0.45`, else substring containment either way `+0.30`, else a shared
whitespace token `+0.15`, else `+0.0` (the `if`/`elif`/`else` makes the
tiers mutually exclusive). -/
def labelTier (label term : String) : ℚ :=
  if label = term then 0.45
  else if isSubstr term label || isSubstr label term then 0.30
  else if (pySplit term).any (fun tk => (pySplit label).contains tk) then 0.15
  else 0

/-- Lines 68–74: `+0.05` for every occurrence of a context token that is a
substring of the (non-empty) lower-cased description; the loop runs over
token occurrences, not distinct tokens, and has no per-step cap. -/
def descBonus (desc : String) (ctx : List String) : ℚ :=
  if desc = "" then 0
  else ctx.foldl (fun acc token =>
    if token != "" && isSubstr token desc then acc + 0.05 else acc) 0

/-- Lines 76–83: `+0.20` when the entity data for the candidate's QID holds
an `enwiki` sitelink; a failed or falsy lookup contributes nothing. -/
def enwikiBonus (detail : DetailFn) (qid : String) : ℚ :=
  match detail qid with
  | none => 0
  | some ent =>
      if ((assocGet ent.entities qid).getD ⟨[]⟩).sitelinks.contains "enwiki"
      then 0.20 else 0

/-- Lines 86–88: `if score > 1.0: score = 1.0`. -/
def pyClamp (s : ℚ) : ℚ := if 1 < s then 1 else s

/-- Lines 47–88, `score_candidate(candidate, row)`: label tier plus
description bonus plus sitelink bonus, clamped above at `1.0`.  The lookup
`candidate['id']` (line 77) raises `KeyError` when the hit has no `id` key;
the label/description work before it is pure, so the observable result of
the Python function is exactly this `Except` value. -/
def score_candidate (detail : DetailFn) (candidate : SearchHit) (row : Row) :
    Except PyErr ℚ :=
  let s1 := labelTier (candLabel candidate) (termOf row)
  let s2 := s1 + descBonus (candDesc candidate) (ctxOf row)
  match candidate.id with
  | none => Except.error (PyErr.keyError "id")
  | some qid => Except.ok (pyClamp (s2 + enwikiBonus detail qid))

/-- Line 104, `scored.sort(key=lambda x: x[3], reverse=True)`: CPython's
`list.sort` is documented stable; with `reverse=True` it orders by the key
descending and keeps the original relative order of equal keys.  The
embedding realises exactly that documented semantics as a stable insertion
sort (stable descending sorts of a list coincide). -/
def insertDesc (x : ScoredTuple) : List ScoredTuple → List ScoredTuple
  | [] => [x]
  | y :: ys => if y.conf ≤ x.conf then x :: y :: ys else y :: insertDesc x ys

/-- The full stable descending sort of the `scored` list (see `insertDesc`). -/
def sortScored (l : List ScoredTuple) : List ScoredTuple :=
  l.foldr insertDesc []

/-- Turns a scored tuple into the accepted-candidate dictionary of line 105. -/
def mkEntry (x : ScoredTuple) : AcceptedEntry :=
  ⟨x.qid, x.label, x.description, x.conf⟩

/-- Line 105: the list comprehension keeping, in order, the entries of the
sorted list with `conf >= threshold`. -/
def acceptedOf (threshold : ℚ) (sorted : List ScoredTuple) : List AcceptedEntry :=
  (sorted.filter (fun x => decide (threshold ≤ x.conf))).map mkEntry

/-- Lines 99–102: score each search hit in order and accumulate the tuples
`(c['id'], c.get('label'), c.get('description'), conf)`; the first raised
`KeyError` (from `score_candidate` reaching `candidate['id']`) aborts the
loop exactly as a Python exception would. -/
def scoreLoop (detail : DetailFn) (row : Row) :
    List SearchHit → List ScoredTuple → Except PyErr (List ScoredTuple)
  | [], acc => Except.ok acc
  | c :: cs, acc =>
      match score_candidate detail c row with
      | Except.error e => Except.error e
      | Except.ok conf =>
          match c.id with
          | none => Except.error (PyErr.keyError "id")
          | some qid =>
              scoreLoop detail row cs (acc ++ [ScoredTuple.mk qid c.label c.description conf])

/-- The value `find_candidates_for_row` evaluates to: the bare `[]`
returned at lines 94 and 97, or the pair `(candidates, scored)` of
line 106.  The caller in `main` unpacks the value into two names, which
raises `ValueError` on the bare empty list. -/
inductive FindResult where
  | bare
  | pair (candidates : List AcceptedEntry) (scored : List ScoredTuple)
deriving DecidableEq, Repr

/-- Lines 90–106, `find_candidates_for_row(row, threshold)`: resolve the
query label (`wiki_label or word`), return the bare `[]` when it is falsy
or when `search_wikidata` yields no data, else score every hit, sort by
confidence descending (stable), and pair the thresholded accepted list
with the full sorted list. -/
def find_candidates_for_row (search : SearchFn) (detail : DetailFn)
    (row : Row) (threshold : ℚ) : Except PyErr FindResult :=
  match pyOrS (rowGet? row "wiki_label") (rowGet? row "word") with
  | none => Except.ok FindResult.bare
  | some lab =>
      if lab = "" then Except.ok FindResult.bare
      else
        match search lab with
        | none => Except.ok FindResult.bare
        | some res =>
            match scoreLoop detail row res.search [] with
            | Except.error e => Except.error e
            | Except.ok scored =>
                let sorted := sortScored scored
                Except.ok (FindResult.pair (acceptedOf threshold sorted) sorted)

/-- Serialization of a JSON string value; escaping details are irrelevant
to every claim (no claim inspects the serialized candidate blob). -/
def jsonStr (s : String) : String := "\x22" ++ s ++ "\x22"

/-- Serialization of an optional string: Python `None` prints as `null`. -/
def jsonOpt : Option String → String
  | none => "null"
  | some s => jsonStr s

/-- Models `json.dumps` of one accepted-candidate dictionary (line 125). -/
def dumpAcceptedEntry (e : AcceptedEntry) : String :=
  "\x7b" ++ "\x22qid\x22: " ++ jsonStr e.qid
    ++ ", \x22label\x22: " ++ jsonOpt e.label
    ++ ", \x22description\x22: " ++ jsonOpt e.description
    ++ ", \x22confidence\x22: " ++ toString e.confidence ++ "\x7d"

/-- Models `json.dumps(candidates, ...)` at line 125. -/
def dumpAccepted (l : List AcceptedEntry) : String :=
  "[" ++ String.intercalate ", " (l.map dumpAcceptedEntry) ++ "]"

/-- Models `json.dumps` of one fallback top-candidate dictionary (line 132):
keys `qid`, `label`, `desc`, `raw_conf` — a shape distinct from the
accepted list. -/
def dumpTopEntry (x : ScoredTuple) : String :=
  "\x7b" ++ "\x22qid\x22: " ++ jsonStr x.qid
    ++ ", \x22label\x22: " ++ jsonOpt x.label
    ++ ", \x22desc\x22: " ++ jsonOpt x.description
    ++ ", \x22raw_conf\x22: " ++ toString x.conf ++ "\x7d"

/-- Models the `json.dumps` of the fallback top-3 list at line 132. -/
def dumpTop (l : List ScoredTuple) : String :=
  "[" ++ String.intercalate ", " (l.map dumpTopEntry) ++ "]"

/-- Line 117, the skip guard of `main`:
`(r.get('wiki_qid') and r.get('wiki_qid') != 'TBD') or (r.get('wiki_label') is None and r.get('word')=='')`. -/
def skipGuard (r : Row) : Bool :=
  (pyTruthyS (rowGet? r "wiki_qid") && (rowGet? r "wiki_qid" != some "TBD"))
    || ((rowGet? r "wiki_label" == (none : Option String))
        && (rowGet? r "word" == some ""))

/-- Lines 115–135, the per-row body of `main`: skip already-resolved /
nothing-to-search rows (appending the input row unchanged), otherwise call
`find_candidates_for_row` and unpack its result — the bare `[]` return
raises `ValueError: not enough values to unpack` — then attach either the
accepted candidates (`wiki_qid_candidates`, `wiki_qid`,
`wiki_qid_confidence`) or the top-3 fallback with empty `wiki_qid` and
`wiki_qid_confidence` to a copy `dict(r)` of the row. -/
def processRow (search : SearchFn) (detail : DetailFn) (threshold : ℚ)
    (r : Row) : Except PyErr OutRow :=
  if skipGuard r then Except.ok (toOut r)
  else
    match find_candidates_for_row search detail r threshold with
    | Except.error e => Except.error e
    | Except.ok FindResult.bare =>
        Except.error (PyErr.valueError "not enough values to unpack")
    | Except.ok (FindResult.pair candidates scored) =>
        let r_out := toOut r
        match candidates with
        | c0 :: _ =>
            Except.ok (setKey (setKey (setKey r_out
              "wiki_qid_candidates" (OutVal.str (dumpAccepted candidates)))
              "wiki_qid" (OutVal.str c0.qid))
              "wiki_qid_confidence" (OutVal.num c0.confidence))
        | [] =>
            let top := scored.take 3
            Except.ok (setKey (setKey (setKey r_out
              "wiki_qid_candidates" (OutVal.str (dumpTop top)))
              "wiki_qid" (OutVal.str ""))
              "wiki_qid_confidence" (OutVal.str ""))

/-- The search hits the code actually iterates over for a row: empty when the
query label is falsy or the Candidate Source yields no data, else the
response's hit list.  (Mirrors the branch structure of
`find_candidates_for_row` up to line 98.) -/
def hitsConsulted (search : SearchFn) (row : Row) : List SearchHit :=
  match pyOrS (rowGet? row "wiki_label") (rowGet? row "word") with
  | none => []
  | some lab =>
      if lab = "" then []
      else
        match search lab with
        | none => []
        | some res => res.search

/-! ### Helper lemmas -/

/-- The label tier takes exactly one of its four advertised values: the
`if`/`elif`/`else` chain awards only the highest applicable tier. -/
theorem labelTier_mem (label term : String) :
    labelTier label term = 0.45 ∨ labelTier label term = 0.30 ∨
      labelTier label term = 0.15 ∨ labelTier label term = 0 := by
  unfold labelTier
  split_ifs <;> simp

/-- Every label-tier contribution is non-negative. -/
theorem labelTier_nonneg (label term : String) : 0 ≤ labelTier label term := by
  rcases labelTier_mem label term with h | h | h | h <;> rw [h] <;> norm_num

/-- The description-bonus fold only ever adds `0.05`, so it never drops
below its starting value. -/
theorem foldl_descStep_le (desc : String) :
    ∀ (ctx : List String) (a : ℚ),
      a ≤ ctx.foldl (fun acc token =>
        if token != "" && isSubstr token desc then acc + 0.05 else acc) a := by
  intro ctx
  induction ctx with
  | nil => intro a; simp
  | cons t ts ih =>
      intro a
      simp only [List.foldl_cons]
      refine le_trans ?_ (ih _)
      split <;> norm_num

/-- The description bonus is non-negative. -/
theorem descBonus_nonneg (desc : String) (ctx : List String) :
    0 ≤ descBonus desc ctx := by
  unfold descBonus
  split
  · norm_num
  · exact foldl_descStep_le desc ctx 0

/-- The sitelink bonus is non-negative. -/
theorem enwikiBonus_nonneg (detail : DetailFn) (qid : String) :
    0 ≤ enwikiBonus detail qid := by
  unfold enwikiBonus
  split
  · norm_num
  · split_ifs <;> norm_num

/-- The final clamp keeps a non-negative input non-negative. -/
theorem pyClamp_nonneg {s : ℚ} (h : 0 ≤ s) : 0 ≤ pyClamp s := by
  unfold pyClamp
  split_ifs <;> [norm_num; exact h]

/-- The final clamp never exceeds `1`. -/
theorem pyClamp_le_one (s : ℚ) : pyClamp s ≤ 1 := by
  unfold pyClamp
  split_ifs with h
  · exact le_refl 1
  · linarith [not_lt.mp h]

/-- Evaluation of `score_candidate` when the hit carries its identifier. -/
theorem score_candidate_eq (detail : DetailFn) (c : SearchHit) (row : Row)
    (q : String) (hq : c.id = some q) :
    score_candidate detail c row =
      Except.ok (pyClamp (labelTier (candLabel c) (termOf row)
        + descBonus (candDesc c) (ctxOf row) + enwikiBonus detail q)) := by
  simp [score_candidate, hq]

/-- The scoring loop of lines 99–102 succeeds when every hit carries its
identifier. -/
theorem scoreLoop_ok (detail : DetailFn) (row : Row) :
    ∀ (hits : List SearchHit) (acc : List ScoredTuple),
      (∀ h ∈ hits, h.id.isSome = true) →
      ∃ out, scoreLoop detail row hits acc = Except.ok out := by
  intro hits
  induction hits with
  | nil => exact fun acc _ => ⟨acc, rfl⟩
  | cons c cs ih =>
      intro acc hall
      obtain ⟨q, hq⟩ := Option.isSome_iff_exists.mp (hall c (List.mem_cons_self c cs))
      obtain ⟨out, hout⟩ := ih (acc ++ [ScoredTuple.mk q c.label c.description
        (pyClamp (labelTier (candLabel c) (termOf row)
          + descBonus (candDesc c) (ctxOf row) + enwikiBonus detail q))])
        (fun h hm => hall h (List.mem_cons_of_mem _ hm))
      refine ⟨out, ?_⟩
      rw [scoreLoop, score_candidate_eq detail c row q hq, hq]
      exact hout

/-! ### The claims -/

/-- C1 (code bug): a record with a queryable label whose Candidate Source
call fails in transport makes `find_candidates_for_row` return the bare
`[]` of line 97, and `main`'s unpacking `candidates, scored = ...`
(line 121) then raises `ValueError` — the batch aborts instead of
producing an Unresolved outcome and continuing. -/
theorem transport_failure_crashes_row :
    processRow (fun _ => none) (fun _ => none) 0.8 [("word", "x")]
      = Except.error (PyErr.valueError "not enough values to unpack") := by
  decide

/-- C2 (counterexample): a search hit missing the identifier field makes
`score_candidate` raise `KeyError` at `candidate['id']` (line 77), and the
same exception escapes `find_candidates_for_row` — scoring is not total on
malformed hits. -/
theorem missing_id_raises_keyerror :
    score_candidate (fun _ => none) ⟨none, some "x", none⟩ [("word", "x")]
        = Except.error (PyErr.keyError "id")
      ∧ find_candidates_for_row (fun _ => some ⟨[⟨none, some "x", none⟩]⟩)
          (fun _ => none) [("word", "x")] 0.8
        = Except.error (PyErr.keyError "id") := by
  exact ⟨by decide, by decide⟩

/-- C2 (amended): when every hit consulted for the row carries the
identifier field, `find_candidates_for_row` completes without raising, and
`score_candidate` is total on any hit carrying its identifier — missing
labels, missing descriptions and failed or absent entity-detail lookups
all degrade without an exception. -/
theorem scorer_total_when_id_present (search : SearchFn) (detail : DetailFn)
    (row : Row) (threshold : ℚ) (hit : SearchHit)
    (hws : ∀ h ∈ hitsConsulted search row, h.id.isSome = true)
    (hhit : hit.id.isSome = true) :
    (find_candidates_for_row search detail row threshold).isOk = true
      ∧ (score_candidate detail hit row).isOk = true := by
  constructor
  · unfold find_candidates_for_row
    unfold hitsConsulted at hws
    cases hlab : pyOrS (rowGet? row "wiki_label") (rowGet? row "word") with
    | none => rfl
    | some lab =>
        simp only [hlab] at hws
        simp only []
        by_cases hempty : lab = ""
        · rw [if_pos hempty]; rfl
        · rw [if_neg hempty]
          simp only [if_neg hempty] at hws
          cases hsr : search lab with
          | none => rfl
          | some res =>
              simp only [hsr] at hws
              obtain ⟨out, hout⟩ := scoreLoop_ok detail row res.search [] hws
              simp only []
              rw [hout]
              rfl
  · obtain ⟨q, hq⟩ := Option.isSome_iff_exists.mp hhit
    rw [score_candidate_eq detail hit row q hq]
    rfl

/-- Witness for C2 (amended) at a concrete well-formed source and hit. -/
theorem scorer_total_when_id_present_witness :
    (∀ h ∈ hitsConsulted (fun _ => some ⟨[⟨some "Q5", some "y", none⟩]⟩)
        [("word", "y")], h.id.isSome = true)
      ∧ ((⟨some "Q5", some "y", none⟩ : SearchHit).id.isSome = true)
      ∧ ((find_candidates_for_row (fun _ => some ⟨[⟨some "Q5", some "y", none⟩]⟩)
            (fun _ => none) [("word", "y")] 0.8).isOk = true
          ∧ (score_candidate (fun _ => none) ⟨some "Q5", some "y", none⟩
              [("word", "y")]).isOk = true) :=
  ⟨by decide, by decide,
    scorer_total_when_id_present _ _ _ _ _ (by decide) (by decide)⟩

/-- C3: whenever `score_candidate` returns a confidence, it lies in
`[0, 1]`: all three contributions are non-negative and the sum is clamped
above at `1.0` (lines 86–87). -/
theorem score_confidence_in_unit_interval (detail : DetailFn)
    (candidate : SearchHit) (row : Row) (s : ℚ)
    (h : score_candidate detail candidate row = Except.ok s) :
    0 ≤ s ∧ s ≤ 1 := by
  cases hq : candidate.id with
  | none => simp [score_candidate, hq] at h
  | some q =>
      rw [score_candidate_eq detail candidate row q hq] at h
      injection h with h
      subst h
      refine ⟨pyClamp_nonneg ?_, pyClamp_le_one _⟩
      have h1 := labelTier_nonneg (candLabel candidate) (termOf row)
      have h2 := descBonus_nonneg (candDesc candidate) (ctxOf row)
      have h3 := enwikiBonus_nonneg detail q
      linarith

/-- Witness for C3 at a concrete scored candidate. -/
theorem score_confidence_in_unit_interval_witness :
    score_candidate (fun _ => none) ⟨some "Q1", some "x", none⟩ [("word", "x")]
        = Except.ok 0.45
      ∧ (0 ≤ (0.45 : ℚ) ∧ (0.45 : ℚ) ≤ 1) :=
  ⟨by decide, score_confidence_in_unit_interval (fun _ => none)
    ⟨some "Q1", some "x", none⟩ [("word", "x")] 0.45 (by decide)⟩

/-- C8 (code bug): a record whose `wiki_label` and `word` are both present
but empty is not skipped by the line-117 guard (it only covers
`wiki_label is None and word == ''`); `find_candidates_for_row` then
returns the bare `[]` of line 94 — without any Candidate Source call,
hence the universal quantification over `search` — and `main`'s unpacking
raises `ValueError` instead of passing the record through. -/
theorem empty_label_row_crashes (search : SearchFn) (detail : DetailFn) :
    processRow search detail 0.8 [("word", ""), ("wiki_label", ""), ("wiki_qid", "")]
      = Except.error (PyErr.valueError "not enough values to unpack") := rfl

/-- Membership after an insertion. -/
theorem mem_insertDesc {z x : ScoredTuple} :
    ∀ {l : List ScoredTuple}, z ∈ insertDesc x l ↔ z = x ∨ z ∈ l := by
  intro l
  induction l with
  | nil => simp [insertDesc]
  | cons y ys ih =>
      by_cases h : y.conf ≤ x.conf
      · simp [insertDesc, h, List.mem_cons]
      · simp [insertDesc, h, List.mem_cons, ih]
        tauto

/-- Inserting into a descending-sorted list keeps it sorted. -/
theorem pairwise_insertDesc {x : ScoredTuple} :
    ∀ {l : List ScoredTuple},
      l.Pairwise (fun u v => v.conf ≤ u.conf) →
      (insertDesc x l).Pairwise (fun u v => v.conf ≤ u.conf) := by
  intro l
  induction l with
  | nil => intro _; simp [insertDesc]
  | cons y ys ih =>
      intro h
      rcases List.pairwise_cons.mp h with ⟨hy, hys⟩
      by_cases hc : y.conf ≤ x.conf
      · simp only [insertDesc, if_pos hc]
        refine List.pairwise_cons.mpr ⟨?_, h⟩
        intro z hz
        rcases List.mem_cons.mp hz with rfl | hz'
        · exact hc
        · exact le_trans (hy z hz') hc
      · simp only [insertDesc, if_neg hc]
        refine List.pairwise_cons.mpr ⟨?_, ih hys⟩
        intro z hz
        rcases mem_insertDesc.mp hz with rfl | hz'
        · exact le_of_lt (lt_of_not_le hc)
        · exact hy z hz'

/-- The full sort is pairwise descending in confidence. -/
theorem sortScored_sorted (l : List ScoredTuple) :
    (sortScored l).Pairwise (fun u v => v.conf ≤ u.conf) := by
  induction l with
  | nil => simp [sortScored]
  | cons a l ih => exact pairwise_insertDesc ih

/-- Inserting an element preserves, on every confidence level `c`, the
subsequence of entries at that level: the inserted element lands in front
of that subsequence exactly when it carries confidence `c` (every entry it
jumps over has strictly larger confidence). -/
theorem filter_insertDesc (c : ℚ) (x : ScoredTuple) :
    ∀ (l : List ScoredTuple),
      (insertDesc x l).filter (fun y => decide (y.conf = c))
        = if x.conf = c then x :: l.filter (fun y => decide (y.conf = c))
          else l.filter (fun y => decide (y.conf = c)) := by
  intro l
  induction l with
  | nil =>
      by_cases hx : x.conf = c <;> simp [insertDesc, List.filter, hx]
  | cons y ys ih =>
      by_cases hc : y.conf ≤ x.conf
      · have hstep : insertDesc x (y :: ys) = x :: y :: ys := by
          simp only [insertDesc, if_pos hc]
        rw [hstep]
        by_cases hx : x.conf = c <;> simp [List.filter_cons, hx]
      · have hstep : insertDesc x (y :: ys) = y :: insertDesc x ys := by
          simp only [insertDesc, if_neg hc]
        rw [hstep]
        have hlt : x.conf < y.conf := lt_of_not_le hc
        by_cases hx : x.conf = c
        · have hy : ¬(y.conf = c) := by
            intro hyc
            rw [hx] at hlt
            rw [hyc] at hlt
            exact lt_irrefl c hlt
          simp [List.filter_cons, hx, hy, ih]
        · by_cases hyc : y.conf = c <;>
            simp [List.filter_cons, hx, hyc, ih]

/-- Sorting preserves, on every confidence level `c`, the original
subsequence of entries at that level (the stability of the sort). -/
theorem filter_sortScored (c : ℚ) (l : List ScoredTuple) :
    (sortScored l).filter (fun y => decide (y.conf = c))
      = l.filter (fun y => decide (y.conf = c)) := by
  induction l with
  | nil => rfl
  | cons a l ih =>
      show (insertDesc a (sortScored l)).filter _ = _
      rw [filter_insertDesc]
      by_cases h : a.conf = c <;> simp [h, ih, List.filter_cons]

/-- C5: the ranking of line 104 sorts by confidence descending and is
stable — for every confidence value `c`, the entries of confidence `c`
appear in the sorted list, and hence in the accepted list (for any
threshold `t ≤ c`), in exactly the order the Candidate Source returned
them. -/
theorem ranking_sorted_and_stable (l : List ScoredTuple) (t c : ℚ)
    (h : t ≤ c) :
    (sortScored l).Pairwise (fun u v => v.conf ≤ u.conf)
      ∧ (sortScored l).filter (fun y => decide (y.conf = c))
          = l.filter (fun y => decide (y.conf = c))
      ∧ (acceptedOf t (sortScored l)).filter (fun e => decide (e.confidence = c))
          = (l.filter (fun y => decide (y.conf = c))).map mkEntry := by
  refine ⟨sortScored_sorted l, filter_sortScored c l, ?_⟩
  unfold acceptedOf
  rw [List.filter_map]
  have hcomp : ((fun e : AcceptedEntry => decide (e.confidence = c)) ∘ mkEntry)
      = fun y : ScoredTuple => decide (y.conf = c) := by
    funext y
    simp [mkEntry, Function.comp]
  rw [hcomp, List.filter_filter]
  have hpred : ∀ a ∈ sortScored l,
      (decide (a.conf = c) && decide (t ≤ a.conf)) = decide (a.conf = c) := by
    intro a _
    by_cases ha : a.conf = c
    · simp [ha, h]
    · simp [ha]
  rw [List.filter_congr hpred, filter_sortScored]

/-- Witness for C5 on a two-element tie at confidence `0.5`. -/
theorem ranking_sorted_and_stable_witness :
    (0.4 : ℚ) ≤ 0.5
      ∧ ((sortScored [⟨"Q1", none, none, 0.5⟩, ⟨"Q2", none, none, 0.5⟩]).Pairwise
            (fun u v => v.conf ≤ u.conf)
          ∧ (sortScored [⟨"Q1", none, none, 0.5⟩, ⟨"Q2", none, none, 0.5⟩]).filter
                (fun y => decide (y.conf = 0.5))
              = ([⟨"Q1", none, none, 0.5⟩, ⟨"Q2", none, none, 0.5⟩] :
                  List ScoredTuple).filter (fun y => decide (y.conf = 0.5))
          ∧ (acceptedOf 0.4 (sortScored [⟨"Q1", none, none, 0.5⟩,
                ⟨"Q2", none, none, 0.5⟩])).filter
                (fun e => decide (e.confidence = 0.5))
              = (([⟨"Q1", none, none, 0.5⟩, ⟨"Q2", none, none, 0.5⟩] :
                  List ScoredTuple).filter (fun y => decide (y.conf = 0.5))).map
                  mkEntry) :=
  ⟨by decide,
    ranking_sorted_and_stable [⟨"Q1", none, none, 0.5⟩, ⟨"Q2", none, none, 0.5⟩]
      0.4 0.5 (by decide)⟩

/-- C6: acceptance at line 105 uses `>=`, not `>`: a candidate whose
confidence equals the threshold exactly lands in the accepted list, and a
candidate with confidence strictly below the threshold never does. -/
theorem threshold_boundary (t : ℚ) (l : List ScoredTuple) (x : ScoredTuple)
    (hx : x ∈ l) :
    (x.conf = t → mkEntry x ∈ acceptedOf t l)
      ∧ (x.conf < t → mkEntry x ∉ acceptedOf t l) := by
  constructor
  · intro heq
    unfold acceptedOf
    refine List.mem_map_of_mem mkEntry (List.mem_filter.mpr ⟨hx, ?_⟩)
    simp [heq]
  · intro hlt hmem
    unfold acceptedOf at hmem
    obtain ⟨y, hy, hmy⟩ := List.mem_map.mp hmem
    obtain ⟨hyl, hyt⟩ := List.mem_filter.mp hy
    have hyx : y.conf = x.conf := congrArg AcceptedEntry.confidence hmy
    have ht : t ≤ y.conf := of_decide_eq_true hyt
    rw [hyx] at ht
    linarith

/-- Witness for C6 at a candidate scored exactly at the threshold. -/
theorem threshold_boundary_witness :
    ((⟨"Q1", none, none, 0.5⟩ : ScoredTuple) ∈
        ([⟨"Q1", none, none, 0.5⟩] : List ScoredTuple))
      ∧ (((0.5 : ℚ) = 0.5 →
            mkEntry ⟨"Q1", none, none, 0.5⟩ ∈ acceptedOf 0.5 [⟨"Q1", none, none, 0.5⟩])
          ∧ ((0.5 : ℚ) < 0.5 →
            mkEntry ⟨"Q1", none, none, 0.5⟩ ∉ acceptedOf 0.5 [⟨"Q1", none, none, 0.5⟩])) :=
  ⟨by decide, threshold_boundary 0.5 [⟨"Q1", none, none, 0.5⟩]
    ⟨"Q1", none, none, 0.5⟩ (by decide)⟩

/-- C4 (counterexample): with fourteen matching context-token occurrences
(14 × 0.05 = 0.70 of description bonus) the final clamp makes an
exact-match candidate and a substring-match candidate — identical in id,
description and every other signal — both score exactly `1.0`: the
exact-match candidate does not score strictly higher. -/
theorem exact_vs_substring_clamp_tie :
    score_candidate (fun _ => none) ⟨some "Q1", some "x", some "x"⟩
        [("word", "x"), ("geo_path", "x x x x x x x x x x x x x x")]
      = Except.ok 1
      ∧ score_candidate (fun _ => none) ⟨some "Q1", some "xy", some "x"⟩
          [("word", "x"), ("geo_path", "x x x x x x x x x x x x x x")]
        = Except.ok 1
      ∧ candLabel ⟨some "Q1", some "x", some "x"⟩
          = termOf [("word", "x"), ("geo_path", "x x x x x x x x x x x x x x")]
      ∧ candLabel ⟨some "Q1", some "xy", some "x"⟩
          ≠ termOf [("word", "x"), ("geo_path", "x x x x x x x x x x x x x x")]
      ∧ isSubstr (termOf [("word", "x"), ("geo_path", "x x x x x x x x x x x x x x")])
          (candLabel ⟨some "Q1", some "xy", some "x"⟩) = true
      ∧ (⟨some "Q1", some "x", some "x"⟩ : SearchHit).description
          = (⟨some "Q1", some "xy", some "x"⟩ : SearchHit).description :=
  ⟨by decide, by decide, by decide, by decide, by decide, by decide⟩

/-- C4 (amended): the label tiers are mutually exclusive, awarding exactly
one of `0.45`, `0.30`, `0.15`, `0`; and for three candidates identical in
every other signal — same identifier, same description — an exact-match
candidate scores strictly higher than a substring-match candidate, which
scores strictly higher than a token-overlap-only candidate, provided their
shared non-label contributions (description bonus plus sitelink bonus) stay
below `0.70`, i.e. provided the `1.0` clamp is not reached by two of the
three scores at once. -/
theorem label_tier_strict_below_clamp (detail : DetailFn) (row : Row)
    (A B C : SearchHit) (q : String)
    (hA : A.id = some q) (hB : B.id = some q) (hC : C.id = some q)
    (hdAB : A.description = B.description)
    (hdBC : B.description = C.description)
    (htA : candLabel A = termOf row)
    (htB1 : candLabel B ≠ termOf row)
    (htB2 : (isSubstr (termOf row) (candLabel B)
        || isSubstr (candLabel B) (termOf row)) = true)
    (htC1 : candLabel C ≠ termOf row)
    (htC2 : (isSubstr (termOf row) (candLabel C)
        || isSubstr (candLabel C) (termOf row)) = false)
    (htC3 : ((pySplit (termOf row)).any
        fun tk => (pySplit (candLabel C)).contains tk) = true)
    (hclamp : descBonus (candDesc A) (ctxOf row) + enwikiBonus detail q < 0.70) :
    (∀ lab tm : String, labelTier lab tm = 0.45 ∨ labelTier lab tm = 0.30
        ∨ labelTier lab tm = 0.15 ∨ labelTier lab tm = 0)
      ∧ ∃ sa sb sc,
          score_candidate detail A row = Except.ok sa
          ∧ score_candidate detail B row = Except.ok sb
          ∧ score_candidate detail C row = Except.ok sc
          ∧ sc < sb ∧ sb < sa := by
  refine ⟨labelTier_mem, ?_⟩
  have hdA : candDesc B = candDesc A := by
    unfold candDesc
    rw [hdAB]
  have hdC : candDesc C = candDesc A := by
    unfold candDesc
    rw [(hdAB.trans hdBC).symm]
  have hA45 : labelTier (candLabel A) (termOf row) = 0.45 := by
    unfold labelTier
    rw [if_pos htA]
  have hB30 : labelTier (candLabel B) (termOf row) = 0.30 := by
    unfold labelTier
    rw [if_neg htB1, if_pos htB2]
  have hC15 : labelTier (candLabel C) (termOf row) = 0.15 := by
    unfold labelTier
    rw [if_neg htC1, if_neg (by rw [htC2]; simp), if_pos htC3]
  have hsA := score_candidate_eq detail A row q hA
  have hsB := score_candidate_eq detail B row q hB
  have hsC := score_candidate_eq detail C row q hC
  rw [hA45] at hsA
  rw [hB30, hdA] at hsB
  rw [hC15, hdC] at hsC
  refine ⟨_, _, _, hsA, hsB, hsC, ?_, ?_⟩
  · have e15 : pyClamp (0.15 + descBonus (candDesc A) (ctxOf row)
        + enwikiBonus detail q)
        = 0.15 + descBonus (candDesc A) (ctxOf row) + enwikiBonus detail q := by
      unfold pyClamp
      rw [if_neg (by linarith)]
    have e30 : pyClamp (0.30 + descBonus (candDesc A) (ctxOf row)
        + enwikiBonus detail q)
        = 0.30 + descBonus (candDesc A) (ctxOf row) + enwikiBonus detail q := by
      unfold pyClamp
      rw [if_neg (by linarith)]
    rw [e15, e30]
    linarith
  · have e30 : pyClamp (0.30 + descBonus (candDesc A) (ctxOf row)
        + enwikiBonus detail q)
        = 0.30 + descBonus (candDesc A) (ctxOf row) + enwikiBonus detail q := by
      unfold pyClamp
      rw [if_neg (by linarith)]
    rw [e30]
    unfold pyClamp
    split_ifs with h1
    · linarith
    · linarith

/-- Witness for C4 (amended) at three concrete candidates for the query
label `"ab cd"`. -/
theorem label_tier_strict_below_clamp_witness :
    ((⟨some "Q1", some "ab cd", none⟩ : SearchHit).id = some "Q1")
      ∧ ((⟨some "Q1", some "ab cd ef", none⟩ : SearchHit).id = some "Q1")
      ∧ ((⟨some "Q1", some "cd zz", none⟩ : SearchHit).id = some "Q1")
      ∧ ((⟨some "Q1", some "ab cd", none⟩ : SearchHit).description
          = (⟨some "Q1", some "ab cd ef", none⟩ : SearchHit).description)
      ∧ ((⟨some "Q1", some "ab cd ef", none⟩ : SearchHit).description
          = (⟨some "Q1", some "cd zz", none⟩ : SearchHit).description)
      ∧ candLabel ⟨some "Q1", some "ab cd", none⟩ = termOf [("word", "ab cd")]
      ∧ candLabel ⟨some "Q1", some "ab cd ef", none⟩ ≠ termOf [("word", "ab cd")]
      ∧ (isSubstr (termOf [("word", "ab cd")])
            (candLabel ⟨some "Q1", some "ab cd ef", none⟩)
          || isSubstr (candLabel ⟨some "Q1", some "ab cd ef", none⟩)
            (termOf [("word", "ab cd")])) = true
      ∧ candLabel ⟨some "Q1", some "cd zz", none⟩ ≠ termOf [("word", "ab cd")]
      ∧ (isSubstr (termOf [("word", "ab cd")])
            (candLabel ⟨some "Q1", some "cd zz", none⟩)
          || isSubstr (candLabel ⟨some "Q1", some "cd zz", none⟩)
            (termOf [("word", "ab cd")])) = false
      ∧ ((pySplit (termOf [("word", "ab cd")])).any
          fun tk => (pySplit (candLabel ⟨some "Q1", some "cd zz", none⟩)).contains tk) = true
      ∧ descBonus (candDesc ⟨some "Q1", some "ab cd", none⟩)
            (ctxOf [("word", "ab cd")]) + enwikiBonus (fun _ => none) "Q1" < 0.70
      ∧ ((∀ lab tm : String, labelTier lab tm = 0.45 ∨ labelTier lab tm = 0.30
            ∨ labelTier lab tm = 0.15 ∨ labelTier lab tm = 0)
          ∧ ∃ sa sb sc,
              score_candidate (fun _ => none) ⟨some "Q1", some "ab cd", none⟩
                  [("word", "ab cd")] = Except.ok sa
              ∧ score_candidate (fun _ => none) ⟨some "Q1", some "ab cd ef", none⟩
                  [("word", "ab cd")] = Except.ok sb
              ∧ score_candidate (fun _ => none) ⟨some "Q1", some "cd zz", none⟩
                  [("word", "ab cd")] = Except.ok sc
              ∧ sc < sb ∧ sb < sa) :=
  ⟨by decide, by decide, by decide, by decide, by decide, by decide, by decide,
    by decide, by decide, by decide, by decide, by decide,
    label_tier_strict_below_clamp (fun _ => none) [("word", "ab cd")]
      ⟨some "Q1", some "ab cd", none⟩ ⟨some "Q1", some "ab cd ef", none⟩
      ⟨some "Q1", some "cd zz", none⟩ "Q1" (by decide) (by decide) (by decide)
      (by decide) (by decide) (by decide) (by decide) (by decide) (by decide)
      (by decide) (by decide) (by decide)⟩

/-- C7: a record whose `wiki_qid` is non-empty and not `"TBD"` satisfies
the skip guard of line 117 and is passed through unchanged, whatever the
collaborators or the threshold — so a second resolution run (the second
conjunct, with arbitrary other collaborators) returns the same record
again. -/
theorem already_resolved_skip (search : SearchFn) (detail : DetailFn) (t : ℚ)
    (search2 : SearchFn) (detail2 : DetailFn) (t2 : ℚ) (r : Row) (q : String)
    (h1 : rowGet? r "wiki_qid" = some q) (h2 : q ≠ "") (h3 : q ≠ "TBD") :
    processRow search detail t r = Except.ok (toOut r)
      ∧ processRow search2 detail2 t2 r = Except.ok (toOut r) := by
  have hg : skipGuard r = true := by
    unfold skipGuard
    rw [h1]
    have t1 : pyTruthyS (some q) = true := by
      simp [pyTruthyS, h2]
    have t2 : ((some q : Option String) != some "TBD") = true := by
      rw [bne_iff_ne]
      simp [h3]
    rw [t1, t2]
    rfl
  exact ⟨by simp [processRow, hg], by simp [processRow, hg]⟩

/-- Witness for C7 at a record already holding `wiki_qid = "Q42"`. -/
theorem already_resolved_skip_witness :
    rowGet? [("wiki_qid", "Q42")] "wiki_qid" = some "Q42"
      ∧ ("Q42" ≠ "")
      ∧ ("Q42" ≠ "TBD")
      ∧ (processRow (fun _ => none) (fun _ => none) 0.8 [("wiki_qid", "Q42")]
            = Except.ok (toOut [("wiki_qid", "Q42")])
          ∧ processRow (fun _ => some ⟨[]⟩) (fun _ => none) 0.5 [("wiki_qid", "Q42")]
            = Except.ok (toOut [("wiki_qid", "Q42")])) :=
  ⟨by decide, by decide, by decide,
    already_resolved_skip (fun _ => none) (fun _ => none) 0.8
      (fun _ => some ⟨[]⟩) (fun _ => none) 0.5 [("wiki_qid", "Q42")] "Q42"
      (by decide) (by decide) (by decide)⟩

/-- C9 (Scenario C): an exact label match (+0.45), an `enwiki` sitelink
(+0.20) and exactly two matching context tokens in the description
(+0.10) score `0.75`; with the default threshold `0.80` the candidate is
rejected and the record ends Unresolved — empty `wiki_qid` and empty
`wiki_qid_confidence` in the output record. -/
theorem scenario_c_score_075_unresolved :
    score_candidate (fun _ => some ⟨[("Q64", ⟨["enwiki"]⟩)]⟩)
        ⟨some "Q64", some "Berlin", some "capital of germany in europe"⟩
        [("word", "berlin"), ("wiki_qid", "TBD"), ("geo_path", "germany europe"),
          ("time_path", ""), ("category", "")]
      = Except.ok 0.75
      ∧ (processRow
          (fun _ => some ⟨[⟨some "Q64", some "Berlin", some "capital of germany in europe"⟩]⟩)
          (fun _ => some ⟨[("Q64", ⟨["enwiki"]⟩)]⟩) 0.8
          [("word", "berlin"), ("wiki_qid", "TBD"), ("geo_path", "germany europe"),
            ("time_path", ""), ("category", "")]).map
            (fun out => (rowGetO out "wiki_qid", rowGetO out "wiki_qid_confidence"))
        = Except.ok (some (OutVal.str ""), some (OutVal.str "")) :=
  ⟨by decide, by decide⟩

/-- Lookup after a `setKey` on a different key is unchanged. -/
theorem rowGetO_setKey_ne (m : OutRow) (k' : String) (v : OutVal) (k : String)
    (h : k ≠ k') : rowGetO (setKey m k' v) k = rowGetO m k := by
  induction m with
  | nil => simp [setKey, rowGetO, assocGet, Ne.symm h]
  | cons p rest ih =>
      obtain ⟨pk, pv⟩ := p
      by_cases hp : pk = k'
      · subst hp
        simp [setKey, rowGetO, assocGet, Ne.symm h]
      · by_cases hpk : pk = k
        · subst hpk
          simp [setKey, hp, rowGetO, assocGet]
        · have hstep : setKey ((pk, pv) :: rest) k' v = (pk, pv) :: setKey rest k' v := by
            simp [setKey, hp]
          rw [hstep]
          simp only [rowGetO, assocGet, if_neg hpk]
          exact ih

/-- Lookup in the output-embedded row matches lookup in the input row. -/
theorem rowGetO_toOut (r : Row) (k : String) :
    rowGetO (toOut r) k = (rowGet? r k).map OutVal.str := by
  induction r with
  | nil => rfl
  | cons p rest ih =>
      by_cases hp : p.1 = k
      · simp [toOut, rowGetO, rowGet?, assocGet, hp]
      · simp only [toOut, List.map_cons, rowGetO, rowGet?, assocGet, if_neg hp]
        simpa [toOut, rowGetO, rowGet?] using ih

/-- C10: a record that undergoes resolution produces an output row in
which only `wiki_qid`, `wiki_qid_candidates` and `wiki_qid_confidence` are
added or changed: every other key holds its input value verbatim.  (The
embedding is purely functional, mirroring the `dict(r)` copy of line 123,
so the input record itself is untouched.) -/
theorem resolver_frame (search : SearchFn) (detail : DetailFn) (t : ℚ)
    (r : Row) (out : OutRow) (k : String)
    (hns : skipGuard r = false)
    (h : processRow search detail t r = Except.ok out)
    (hk1 : k ≠ "wiki_qid") (hk2 : k ≠ "wiki_qid_candidates")
    (hk3 : k ≠ "wiki_qid_confidence") :
    rowGetO out k = (rowGet? r k).map OutVal.str := by
  unfold processRow at h
  rw [if_neg (by simp [hns])] at h
  cases hfr : find_candidates_for_row search detail r t with
  | error e =>
      rw [hfr] at h
      simp at h
  | ok fr =>
      rw [hfr] at h
      cases fr with
      | bare => simp at h
      | pair cands scored =>
          cases cands with
          | nil =>
              simp only [] at h
              injection h with h
              rw [← h, rowGetO_setKey_ne _ _ _ _ hk3,
                rowGetO_setKey_ne _ _ _ _ hk1,
                rowGetO_setKey_ne _ _ _ _ hk2, rowGetO_toOut]
          | cons c0 cs =>
              simp only [] at h
              injection h with h
              rw [← h, rowGetO_setKey_ne _ _ _ _ hk3,
                rowGetO_setKey_ne _ _ _ _ hk1,
                rowGetO_setKey_ne _ _ _ _ hk2, rowGetO_toOut]

/-- Witness for C10 on a resolved (fallback-branch) record, reading back
the untouched `word` field. -/
theorem resolver_frame_witness :
    skipGuard [("word", "x")] = false
      ∧ processRow (fun _ => some ⟨[]⟩) (fun _ => none) 0.8 [("word", "x")]
          = Except.ok [("word", OutVal.str "x"),
              ("wiki_qid_candidates", OutVal.str "[]"),
              ("wiki_qid", OutVal.str ""), ("wiki_qid_confidence", OutVal.str "")]
      ∧ ("word" ≠ "wiki_qid")
      ∧ ("word" ≠ "wiki_qid_candidates")
      ∧ ("word" ≠ "wiki_qid_confidence")
      ∧ rowGetO [("word", OutVal.str "x"),
            ("wiki_qid_candidates", OutVal.str "[]"),
            ("wiki_qid", OutVal.str ""), ("wiki_qid_confidence", OutVal.str "")] "word"
          = (rowGet? [("word", "x")] "word").map OutVal.str :=
  ⟨by decide, by decide, by decide, by decide, by decide,
    resolver_frame (fun _ => some ⟨[]⟩) (fun _ => none) 0.8 [("word", "x")]
      [("word", OutVal.str "x"), ("wiki_qid_candidates", OutVal.str "[]"),
        ("wiki_qid", OutVal.str ""), ("wiki_qid_confidence", OutVal.str "")]
      "word" (by decide) (by decide) (by decide) (by decide) (by decide)⟩

end AddWikidataQids
